import Mathlib

/-!
Verification of the text-to-sql-agent orchestration core.

Shallow embedding of the Python sources under `src/backend/src/text_to_sql/`:

* `agents/tools/sql_tools.py` — `validate_sql`, `execute_sql_query`
* `agents/tools/exploration_tools.py` — `explore_column_values`
* `agents/nodes/{retrieval,sql_generator,validator,executor,tool_executor,responder}.py`
* `agents/graph.py` — routing functions and the pipeline graph
* `agents/state.py` — `AgentState`, `create_initial_state`
* `services/query_cache.py` — `QueryCache`
* `services/vector_store.py` — the search wrappers used by retrieval

External collaborators (the LLM, sqlglot, ChromaDB, asyncpg) are modelled as
oracle parameters; every theorem quantifies over them unless it exhibits a
concrete run.
-/

namespace TextToSql

/-! ## String helpers mirroring the Python regex / str operations -/

/-- `\w` of the Python regexes, restricted to ASCII: letters, digits, underscore. -/
def isWordChar (c : Char) : Bool :=
  c.isAlphanum || c = '_'

/-- Whitespace characters recognised by Python `str.split()` (ASCII range). -/
def isPySpace (c : Char) : Bool :=
  c = ' ' || c = '\t' || c = '\n' || c = '\r' || c = Char.ofNat 11 || c = Char.ofNat 12

/-- `re.sub(r"--.*$", "", sql, flags=re.MULTILINE)`: from `--` to the end of
each line the text is dropped; the newline itself is kept.  The boolean flag
records whether the scanner currently stands inside such a comment. -/
def stripLineCommentsAux : Bool → List Char → List Char
  | _, [] => []
  | true, c :: rest =>
      if c = '\n' then '\n' :: stripLineCommentsAux false rest
      else stripLineCommentsAux true rest
  | false, '-' :: '-' :: rest => stripLineCommentsAux true rest
  | false, c :: rest => c :: stripLineCommentsAux false rest

def stripLineComments (l : List Char) : List Char :=
  stripLineCommentsAux false l

/-- Remainder of the input after the first `*/`, if any. -/
def findBlockEnd : List Char → Option (List Char)
  | [] => none
  | c :: rest =>
    if c = '*' && rest.head? == some '/' then some rest.tail
    else findBlockEnd rest

theorem findBlockEnd_length_lt :
    ∀ (l r : List Char), findBlockEnd l = some r → r.length < l.length := by
  intro l
  induction l with
  | nil => intro r h; simp [findBlockEnd] at h
  | cons c rest ih =>
    intro r h
    rw [findBlockEnd] at h
    split at h
    · rename_i hcond
      cases rest with
      | nil => simp at hcond
      | cons d tl =>
        simp at h
        subst h
        simp
        omega
    · have := ih r h
      simp
      omega

/-- `re.sub(r"/\*.*?\*/", "", sql, flags=re.DOTALL)`: each `/*`, lazily up to
the next `*/`, is removed; a `/*` without a closing `*/` (anywhere after it)
is left in place because the regex does not match.  The `Nat` is recursion
fuel: every step shortens the input, so `l.length` is always enough, and the
out-of-fuel branch is unreachable. -/
def stripBlockCommentsAux : Nat → List Char → List Char
  | 0, l => l
  | _ + 1, [] => []
  | fuel + 1, c :: rest =>
    if c = '/' && rest.head? == some '*' then
      match findBlockEnd rest.tail with
      | some after => stripBlockCommentsAux fuel after
      | none => c :: rest
    else c :: stripBlockCommentsAux fuel rest

def stripBlockComments (l : List Char) : List Char :=
  stripBlockCommentsAux l.length l

/-- Python `str.split()`: split on runs of whitespace, empty words dropped.
`cur` is the current word being collected, in reverse. -/
def wordsPyAux (cur : List Char) : List Char → List (List Char)
  | [] => if cur.isEmpty then [] else [cur.reverse]
  | c :: rest =>
    if isPySpace c then
      if cur.isEmpty then wordsPyAux [] rest
      else cur.reverse :: wordsPyAux [] rest
    else wordsPyAux (c :: cur) rest

def wordsPy (l : List Char) : List (List Char) :=
  wordsPyAux [] l

/-- `" ".join(words)`. -/
def joinSpace : List (List Char) → List Char
  | [] => []
  | [w] => w
  | w :: ws => w ++ ' ' :: joinSpace ws

/-- The comment-stripping and whitespace normalisation of `validate_sql`
(`sql_tools.py` lines 44-47): line comments, then block comments, then
`" ".join(sql.split())`. -/
def cleanSql (s : String) : String :=
  ⟨joinSpace (wordsPy (stripBlockComments (stripLineComments s.data)))⟩

/-- Case-insensitive match of `kw` at the head of `cs`, with a word boundary
after it (the trailing `\b` of `rf"\b{keyword}\b"`). -/
def wholeWordAt (cs kw : List Char) : Bool :=
  ((cs.take kw.length).map Char.toLower == kw.map Char.toLower) &&
  (match cs.drop kw.length with
   | [] => true
   | d :: _ => !isWordChar d)

/-- Scan for `kw` as a whole word; `prevIsWord` tells whether the previous
character was a word character (the leading `\b`).  The keywords all start
and end with letters, so a boundary holds exactly when the neighbour is not
a word character. -/
def findWholeWordAux (kw : List Char) : Bool → List Char → Bool
  | _, [] => false
  | prevIsWord, c :: rest =>
    ((!prevIsWord) && wholeWordAt (c :: rest) kw) ||
      findWholeWordAux kw (isWordChar c) rest

/-- `re.search(rf"\b{kw}\b", s, re.IGNORECASE)` is some match. -/
def containsWholeWordCI (s kw : String) : Bool :=
  findWholeWordAux kw.data false s.data

/-- Python `pat in s` (substring containment). -/
def containsSubstrAux (pat : List Char) : List Char → Bool
  | [] => pat == []
  | c :: rest => ((c :: rest).take pat.length == pat) || containsSubstrAux pat rest

def containsSubstr (s pat : String) : Bool :=
  containsSubstrAux pat.data s.data

def toUpperStr (s : String) : String :=
  ⟨s.data.map Char.toUpper⟩

/-! ## `validate_sql` (`agents/tools/sql_tools.py`) -/

/-- `SQLCategory` from `core/types.py` (the members relevant to
`validate_sql`; the enum also names the write statement kinds, which
`validate_sql` never assigns). -/
inductive SQLCategory
  | SELECT
  | WITH
  | UNKNOWN
deriving DecidableEq, Repr

/-- `ValidationResult` from `core/types.py`. -/
structure ValidationResult where
  is_valid : Bool
  errors : List String
  warnings : List String
  statement_type : SQLCategory
deriving DecidableEq, Repr

/-- The `PROHIBITED_OPERATIONS` dict of `sql_tools.py`, in insertion order. -/
def PROHIBITED_OPERATIONS : List (String × String) :=
  [("DROP", "This system is read-only. Dropping tables or database objects is not supported."),
   ("DELETE", "This system is read-only. Deleting data is not permitted."),
   ("TRUNCATE", "This system is read-only. Truncating tables is not permitted."),
   ("ALTER", "This system is read-only. Altering database schema is not permitted."),
   ("CREATE", "This system is read-only. Creating new database objects is not permitted."),
   ("INSERT", "This system is read-only. Adding new data is not permitted."),
   ("UPDATE", "This system is read-only. Modifying existing data is not permitted."),
   ("GRANT", "This system is read-only. Changing permissions is not permitted."),
   ("REVOKE", "This system is read-only. Changing permissions is not permitted."),
   ("EXEC", "This system is read-only. Executing stored procedures is not permitted."),
   ("EXECUTE", "This system is read-only. Executing stored procedures is not permitted.")]

/-- The fixed suggestion sentence appended once after the first prohibited
keyword (the two adjacent string literals of lines 56-59). -/
def READ_ONLY_SUGGESTION : String :=
  "You can only query (SELECT) cloud resource data. How can I help you find information about your cloud resources?"

/-- One iteration of the keyword loop (lines 50-59): on a whole-word match
append the user-friendly message, and the suggestion sentence unless some
accumulated error already contains "You can only query". -/
def scanStepF (cleaned : String) (errors : List String) (kv : String × String) :
    List String :=
  if containsWholeWordCI cleaned kv.1 then
    if (errors ++ [kv.2]).any (fun e => containsSubstr e "You can only query") then
      errors ++ [kv.2]
    else errors ++ [kv.2] ++ [READ_ONLY_SUGGESTION]
  else errors

/-- Lines 50-59: the keyword loop accumulating user-friendly messages. -/
def scanProhibited (cleaned : String) : List String :=
  PROHIBITED_OPERATIONS.foldl (scanStepF cleaned) []

/-- Outcome of `sqlglot.parse(sql, dialect="postgres")`, the external parser:
a `ParseError`, some other exception, or a list of statements.  A statement is
`none` for a `None` entry of the returned list, otherwise the (uppercased)
`stmt.key`; a node without a `key` attribute is modelled as `some ""`, which
takes the same branch as in the Python (`stmt_key = ""`). -/
inductive ParseOutcome
  | parseError (msg : String)
  | parseFailed (msg : String)
  | parsed (stmts : List (Option String))

/-- Lines 75-91: the per-statement loop, folding `(statement_type, errors)`. -/
def statementFold (stmts : List (Option String)) : SQLCategory × List String :=
  stmts.foldl
    (fun acc st =>
      match st with
      | none => acc
      | some key =>
        if key = "SELECT" then (SQLCategory.SELECT, acc.2)
        else if key = "WITH" then (SQLCategory.WITH, acc.2)
        else if key = "SEMICOLON" then acc
        else (acc.1,
          acc.2 ++ ["Only SELECT and WITH (CTE) statements are allowed, got: " ++ key]))
    (SQLCategory.UNKNOWN, [])

/-- `validate_sql` (`sql_tools.py` lines 31-119), with `sqlglot.parse` as an
oracle parameter. -/
def validate_sql (parse : String → ParseOutcome) (sql : String) : ValidationResult :=
  let cleaned := cleanSql sql
  let errors := scanProhibited cleaned
  if errors.isEmpty then
    let (stype, errs2) :=
      match parse sql with
      | .parseError e => (SQLCategory.UNKNOWN, ["SQL syntax error: " ++ e])
      | .parseFailed e => (SQLCategory.UNKNOWN, ["SQL parsing failed: " ++ e])
      | .parsed stmts =>
        if stmts.isEmpty then (SQLCategory.UNKNOWN, ["Failed to parse SQL: empty result"])
        else statementFold stmts
    if errs2.isEmpty then
      let upper := toUpperStr cleaned
      let warnings :=
        (if containsSubstr upper "SELECT *" then
          ["Using SELECT * is not recommended; specify columns explicitly"] else []) ++
        (if containsSubstr upper "LIMIT" then [] else
          ["Query has no LIMIT clause; large result sets may impact performance"])
      ⟨true, [], warnings, stype⟩
    else ⟨false, errs2, [], stype⟩
  else ⟨false, errors, [], SQLCategory.UNKNOWN⟩

/-! ## Special response types

`special_response_type` is a string in the Python state; the values that ever
occur are the four below (`agents/state.py`, `sql_generator.py`,
`validator.py`, `executor.py`). -/

inductive SpecialType
  | OUT_OF_SCOPE
  | READ_ONLY
  | RESOURCE_NOT_FOUND
  | NEEDS_CLARIFICATION
deriving DecidableEq, Repr

/-! ## Paginated execution: `execute_sql_query` tool and `executor_node` -/

/-- A result row (a record of column name to rendered value). -/
abbrev Row := List (String × String)

/-- Modelled from the spec: `QueryEngine.fetchPage(sql, offset, limit) ->
{rows, columns, error?}`.  `DatabaseService.execute_query_paginated` is not
among the sources (only its callers are); per `core/types.py`'s
`ExecutionResult` the row count of a successful fetch is `len(rows)`. -/
structure FetchResult where
  success : Bool
  rows : List Row
  columns : List String
  error : Option String
deriving Repr, DecidableEq

/-- `ToolExecutionResult` of `core/types.py` / the result dict of
`execute_sql_query`. -/
structure ToolExecResult where
  success : Bool
  rows : Option (List Row)
  columns : Option (List String)
  row_count : Nat
  total_count : Option Int
  has_more : Bool
  page : Int
  page_size : Int
  query_token : Option String
  error : Option String
deriving Repr, DecidableEq

/-- `_error_result` (`sql_tools.py` lines 307-320). -/
def _error_result (error : String) (page page_size : Int) : ToolExecResult :=
  ⟨false, none, none, 0, none, false, page, page_size, none, some error⟩

/-- Python `x or default` for an optional string (`None` and `""` both fall
through to the default). -/
def orElseStr (o : Option String) (d : String) : String :=
  match o with
  | some e => if e.isEmpty then d else e
  | none => d

/-- `execute_sql_query` (`sql_tools.py` lines 212-304).  External effects are
oracle parameters: `parse` (sqlglot), `tablesCheck` (the outcome of
`validate_tables_exist sql`: all-exist flag and user-facing error),
`countResult` (`execute_count_query`), `fetch` (`execute_query_paginated`,
applied to offset and limit), `token` (`query_cache.store`), and
`sqlMaxRows` (`settings.sql_max_rows`). -/
def execute_sql_query (parse : String → ParseOutcome)
    (tablesCheck : Bool × Option String) (countResult : Option Int)
    (fetch : Int → Int → FetchResult) (token : String) (sqlMaxRows : Int)
    (sql : String) (page page_size : Int) : ToolExecResult :=
  let page_size := min page_size 500
  let page_size := max page_size 1
  let page := max page 1
  let validation := validate_sql parse sql
  if ¬ validation.is_valid then
    _error_result ("Validation failed: " ++ String.intercalate "; " validation.errors)
      page page_size
  else if ¬ tablesCheck.1 ∧ tablesCheck.2.isSome then
    _error_result (tablesCheck.2.getD "") page page_size
  else
    let total_count := countResult
    let page := min page 10000
    let offset := (page - 1) * page_size
    let effective_page_size := min page_size sqlMaxRows
    let result := fetch offset effective_page_size
    if ¬ result.success then
      _error_result (orElseStr result.error "Query execution failed") page page_size
    else
      let row_count := result.rows.length
      let has_more :=
        match total_count with
        | some t => decide ((offset + (row_count : Int)) < t)
        | none => decide ((row_count : Int) = effective_page_size)
      ⟨true, some result.rows, some result.columns, row_count, total_count, has_more,
        page, page_size, some token, none⟩

/-- The clamped offset of `execute_sql_query`: `page_size` through
`min 500` / `max 1`, `page` through `max 1` then the `max_page = 10000` cap,
then `offset = (page - 1) * page_size` (lines 236-264). -/
def execute_sql_query_offset (page page_size : Int) : Int :=
  (min (max page 1) 10000 - 1) * max (min page_size 500) 1

/-! ### `_make_user_friendly_error` (`executor.py` lines 12-54) -/

def toLowerStr (s : String) : String :=
  ⟨s.data.map Char.toLower⟩

/-- `["\']?`: consume one leading quote if present. -/
def quoteOpt (l : List Char) : List Char :=
  match l with
  | c :: rest => if c = '"' || c = '\'' then rest else l
  | [] => l

/-- Match a literal pattern at the head, returning the rest. -/
def literalPref (pat l : List Char) : Option (List Char) :=
  if l.take pat.length == pat then some (l.drop pat.length) else none

/-- Match `{kind} ["\']?(\w+)["\']? does not exist` at the head of `l`,
returning the captured word.  `\w+` is greedy and cannot cross a quote or a
space, so no backtracking is involved. -/
def matchNotExistAt (kind : List Char) (l : List Char) : Option (List Char) :=
  match literalPref (kind ++ [' ']) l with
  | none => none
  | some l2 =>
    let l3 := quoteOpt l2
    let w := l3.takeWhile isWordChar
    if w.isEmpty then none
    else
      match literalPref " does not exist".data (quoteOpt (l3.drop w.length)) with
      | some _ => some w
      | none => none

/-- `re.search` of the pattern above: first match anywhere in `l`. -/
def searchNotExist (kind : List Char) : List Char → Option (List Char)
  | [] => none
  | c :: rest =>
    match matchNotExistAt kind (c :: rest) with
    | some w => some w
    | none => searchNotExist kind rest

/-- `_make_user_friendly_error`: classify a database error string into a
user-friendly message and an optional special response type. -/
def _make_user_friendly_error (error : String) : String × Option SpecialType :=
  let lower := toLowerStr error
  let rel := searchNotExist "relation".data lower.data
  if rel.isSome ||
      (containsSubstr lower "relation" && containsSubstr lower "does not exist") then
    let table_name := match rel with | some w => String.mk w | none => "requested"
    ("The requested resource type '" ++ table_name ++
        "' does not exist in our database. We cannot provide information about " ++
        "resources that are not tracked. Please try asking about a different resource type.",
      some SpecialType.RESOURCE_NOT_FOUND)
  else
    let col := searchNotExist "column".data lower.data
    if col.isSome ||
        (containsSubstr lower "column" && containsSubstr lower "does not exist") then
      let column_name := match col with | some w => String.mk w | none => "requested"
      ("The requested field '" ++ column_name ++
          "' does not exist for this resource type. Please check the available " ++
          "fields or try a different query.",
        some SpecialType.RESOURCE_NOT_FOUND)
    else if containsSubstr lower "permission denied" then
      ("Access to the requested resource is not permitted. " ++
          "Please try asking about a different resource type.", none)
    else (error, none)

/-! ### `executor_node` (`executor.py` lines 57-144) -/

/-- The two shapes of the `executor_node` update dict: the success dict of
lines 122-133 and `make_error` of lines 69-82 (which also carries a
`special_response_type` value, possibly `None`). -/
inductive ExecutorResult
  | ok (results : List Row) (row_count : Nat) (columns : List String)
      (total_count : Option Int) (has_more : Bool) (csv_exceeds : Bool) (token : String)
  | err (msg : String) (special : Option SpecialType)
deriving Repr, DecidableEq

def ExecutorResult.has_more_results : ExecutorResult → Bool
  | .ok _ _ _ _ hm _ _ => hm
  | .err _ _ => false

def ExecutorResult.total_count : ExecutorResult → Option Int
  | .ok _ _ _ t _ _ _ => t
  | .err _ _ => none

def ExecutorResult.returned_rows : ExecutorResult → List Row
  | .ok r _ _ _ _ _ _ => r
  | .err _ _ => []

def ExecutorResult.executed : ExecutorResult → Bool
  | .ok _ _ _ _ _ _ _ => true
  | .err _ _ => false

/-- `executor_node`, with the database (`count`, `fetch`), the cache token
and `settings.csv_max_rows` as oracles.  A raised database exception is the
same classification path as a failed fetch (lines 134-144), so it is covered
by quantifying over failing `fetch` results. -/
def executor_node (generated_sql : Option String) (is_valid : Bool)
    (page page_size : Int) (count : Option Int) (fetch : Int → Int → FetchResult)
    (token : String) (csvMaxRows : Int) : ExecutorResult :=
  match generated_sql with
  | none => .err "No SQL query to execute" none
  | some _ =>
    if ¬ is_valid then .err "SQL validation failed" none
    else
      let offset := (page - 1) * page_size
      let result := fetch offset page_size
      if result.success then
        let total_count := count
        let has_more :=
          match total_count with
          | some t => decide ((offset + (result.rows.length : Int)) < t)
          | none => false
        let csv_exceeds :=
          match total_count with
          | some t => decide (t > csvMaxRows)
          | none => false
        .ok result.rows result.rows.length result.columns total_count has_more
          csv_exceeds token
      else
        let classified := _make_user_friendly_error
          (orElseStr result.error "Query execution failed")
        .err classified.1 classified.2

/-- `effective_page_size = min(page_size, settings.sql_max_rows)` after the
clamps of `execute_sql_query`. -/
def execute_sql_query_effective_page_size (page_size sqlMaxRows : Int) : Int :=
  min (max (min page_size 500) 1) sqlMaxRows

/-! ## `explore_column_values` (`agents/tools/exploration_tools.py`) -/

/-- `re.match(r'^[a-zA-Z_][a-zA-Z0-9_]*$', name)`: the identifier shape, with
the Python quirk that `$` also matches just before one trailing newline. -/
def identCore (l : List Char) : Bool :=
  match l with
  | [] => false
  | c :: rest => (c.isAlpha || c = '_') && rest.all (fun d => d.isAlphanum || d = '_')

def _validate_identifier (name : String) : Bool :=
  identCore name.data ||
    (match name.data.getLast? with
     | some '\n' => identCore name.data.dropLast
     | _ => false)

/-- `_normalize_table_name`: strip a schema-qualifier prefix — split on "."
and keep the last part. -/
def _normalize_table_name (table_name : String) : String :=
  if containsSubstr table_name "." then
    (table_name.splitOn ".").getLastD ""
  else table_name

/-- Result dict of `explore_column_values`.  The success dict carries
`table`/`column` keys; the failure dicts do not (hence `Option`). -/
structure ExploreResult where
  success : Bool
  values : List (String × Int)
  total_distinct : Int
  search_term : Option String
  table : Option String
  column : Option String
  error : Option String
deriving Repr, DecidableEq

def exploreFailure (search_term : Option String) (error : String) : ExploreResult :=
  ⟨false, [], 0, search_term, none, none, some error⟩

/-- `explore_column_values` (lines 52-189).  `knownTables` is the lowercased
table-name set computed by `_get_known_tables` from the vector store; `db` is
the outcome of the database work of the query branch (the grouped-values
query plus the distinct-count query, any exception collapsing the branch to
`Exploration failed: ...`).  The embedding mirrors the source exactly: the
only schema check is the table-membership test — the column name is only
checked for identifier shape, never against a known-column set. -/
def explore_checked (knownTables : List String)
    (db : Except String (List (String × Int) × Int))
    (table_name column_name : String) (search_term : Option String)
    (limit : Int) : ExploreResult :=
  if ¬ _validate_identifier table_name then
    exploreFailure search_term ("Invalid table name: " ++ table_name)
  else if ¬ _validate_identifier column_name then
    exploreFailure search_term ("Invalid column name: " ++ column_name)
  else if ¬ knownTables.contains (toLowerStr table_name) then
    exploreFailure search_term
      ("Table '" ++ table_name ++ "' not found. Available tables include: " ++
        String.intercalate ", " ((knownTables.take 10).mergeSort (fun a b => decide (a ≤ b))))
  else
    let _limit := min (max limit 1) 50
    match db with
    | .ok (values, total_distinct) =>
      ⟨true, values, total_distinct, search_term, some table_name, some column_name, none⟩
    | .error e => exploreFailure search_term ("Exploration failed: " ++ e)

def explore_column_values (knownTables : List String)
    (db : Except String (List (String × Int) × Int))
    (table_name column_name : String) (search_term : Option String)
    (limit : Int) : ExploreResult :=
  explore_checked knownTables db (_normalize_table_name table_name) column_name
    search_term limit

/-! ## `QueryCache` (`services/query_cache.py`) -/

structure CachedQuery where
  sql : String
  created_at : Int
  session_id : String
deriving Repr, DecidableEq

/-- The cache dict, as an insertion-ordered association list, with the
constructor parameters `ttl_seconds` and `max_entries`. -/
structure QueryCache where
  cache : List (String × CachedQuery)
  ttl : Int
  max_entries : Nat
deriving Repr, DecidableEq

/-- `_cleanup_expired`: delete every entry with `now - created_at > ttl`. -/
def QueryCache.cleanupExpired (qc : QueryCache) (now : Int) : QueryCache :=
  { qc with cache := qc.cache.filter (fun e => ! decide (now - e.2.created_at > qc.ttl)) }

/-- Python dict assignment `cache[token] = entry`: replace in place if the
key exists, else append. -/
def dictInsert (cache : List (String × CachedQuery)) (token : String)
    (entry : CachedQuery) : List (String × CachedQuery) :=
  if cache.any (fun e => e.1 == token) then
    cache.map (fun e => if e.1 == token then (token, entry) else e)
  else cache ++ [(token, entry)]

/-- `store` (lines 36-60): the token is the securely random string produced
by `secrets.token_urlsafe`, here a parameter; `now` is `time.time()`.
Expired entries are cleaned up only when the cache is already at or above
`max_entries`. -/
def QueryCache.store (qc : QueryCache) (now : Int) (token sql session_id : String) :
    QueryCache :=
  let qc := if qc.cache.length ≥ qc.max_entries then qc.cleanupExpired now else qc
  { qc with cache := dictInsert qc.cache token ⟨sql, now, session_id⟩ }

/-- `get` (lines 62-81): `None` if absent; expired entries are deleted and
reported absent. -/
def QueryCache.get (qc : QueryCache) (now : Int) (token : String) :
    Option CachedQuery × QueryCache :=
  match qc.cache.find? (fun e => e.1 == token) with
  | none => (none, qc)
  | some e =>
    if now - e.2.created_at > qc.ttl then
      (none, { qc with cache := qc.cache.filter (fun x => ! (x.1 == token)) })
    else (some e.2, qc)

/-! ## Retrieval (`agents/nodes/retrieval.py`, `services/vector_store.py`) -/

/-- A formatted search hit (the dicts produced by `_format_results`). -/
abbrev CtxDoc := String

/-- The `VectorStoreService.search_*` wrappers: any underlying failure is
re-raised as `VectorStoreError("Failed to search {label}: {e}")`. -/
def searchWrap (label : String) (raw : Except String (List CtxDoc)) :
    Except String (List CtxDoc) :=
  match raw with
  | .ok r => .ok r
  | .error e => .error ("Failed to search " ++ label ++ ": " ++ e)

structure RetrievalUpdate where
  sql_pairs : List CtxDoc
  metadata : List CtxDoc
  database_info : List CtxDoc
deriving Repr, DecidableEq

/-- `retrieval_node` (lines 8-35): three sequential searches with **no**
exception handling — a raised `VectorStoreError` propagates out of the node
(`Except.error`), it is not converted into empty result sets. -/
def retrieval_node (raw_sql_pairs raw_metadata raw_database_info :
    Except String (List CtxDoc)) : Except String RetrievalUpdate := do
  let sql_pairs ← searchWrap "SQL pairs" raw_sql_pairs
  let metadata ← searchWrap "metadata" raw_metadata
  let database_info ← searchWrap "database info" raw_database_info
  return ⟨sql_pairs, metadata, database_info⟩

/-! ## The pipeline graph (`agents/graph.py`, `agents/state.py`, the nodes)

`AgentState` is a LangGraph `TypedDict`; plain fields are overwritten by a
node's update dict and untouched fields keep their value, `messages` is the
only field with an appending reducer (the per-node `messages` entries are the
conversation history and are read by no routing function or claim, so they
are left out of the embedding). -/

/-- A tool call parsed from the LLM response (`_parse_tool_calls`): id, name
and the `args` dict (the argument keys the two registered tools read). -/
structure ToolCall where
  id : String
  name : String
  sqlArg : Option String
  tableArg : Option String
  columnArg : Option String
deriving Repr, DecidableEq

/-- An entry of `tool_results` (the per-call payload dict is folded into the
dedicated state fields by `tool_executor_node`, so only the audit fields are
kept). -/
structure ToolResult where
  tool_call_id : String
  tool_name : String
  success : Bool
  error : Option String
deriving Repr, DecidableEq

/-- An entry of `exploration_queries` (`tool_executor.py` lines 112-121). -/
structure ExplorationRecord where
  table : String
  column : String
  search_term : Option String
  values : List String
  counts : List (String × Int)
  total_distinct : Int
  success : Bool
deriving Repr, DecidableEq

/-- A value of the `discovered_values` dict. -/
structure DiscoveredValue where
  values : List String
  search_term : Option String
deriving Repr, DecidableEq

/-- `AgentState` (`agents/state.py` lines 9-73), without `messages` and
`suggested_questions` (append-only conversation history and follow-up
suggestions, read by no routing decision). -/
structure PipeState where
  question : String
  sql_pairs : List CtxDoc
  metadata : List CtxDoc
  database_info : List CtxDoc
  generated_sql : Option String
  sql_explanation : Option String
  special_response_type : Option SpecialType
  is_valid : Bool
  validation_errors : List String
  validation_warnings : List String
  executed : Bool
  results : Option (List Row)
  row_count : Option Nat
  columns : Option (List String)
  execution_error : Option String
  natural_language_response : Option String
  session_id : String
  retry_count : Nat
  page : Int
  page_size : Int
  total_count : Option Int
  has_more_results : Bool
  csv_available : Bool
  csv_exceeds_limit : Bool
  query_token : Option String
  tool_calls : List ToolCall
  tool_results : List ToolResult
  pending_tool_call : Option ToolCall
  exploration_queries : List ExplorationRecord
  exploration_count : Nat
  discovered_values : List (String × DiscoveredValue)
deriving Repr, DecidableEq

/-- `create_initial_state` (`state.py` lines 76-120). -/
def create_initial_state (question session_id : String) (page page_size : Int) :
    PipeState :=
  { question := question
    sql_pairs := []
    metadata := []
    database_info := []
    generated_sql := none
    sql_explanation := none
    special_response_type := none
    is_valid := false
    validation_errors := []
    validation_warnings := []
    executed := false
    results := none
    row_count := none
    columns := none
    execution_error := none
    natural_language_response := none
    session_id := session_id
    retry_count := 0
    page := page
    page_size := min page_size 500
    total_count := none
    has_more_results := false
    csv_available := false
    csv_exceeds_limit := false
    query_token := none
    tool_calls := []
    tool_results := []
    pending_tool_call := none
    exploration_queries := []
    exploration_count := 0
    discovered_values := [] }

/-- The graph nodes (`_build_graph`), plus the `done` pseudo-node for END. -/
inductive Node
  | retrieval
  | sql_generator
  | validator
  | increment_retry
  | executor
  | tool_executor
  | responder
  | done
deriving DecidableEq, Repr

/-- `MAX_RETRIES` (`graph.py` line 17). -/
def MAX_RETRIES : Nat := 2

/-- `MAX_EXPLORATIONS` (`graph.py` line 20). -/
def MAX_EXPLORATIONS : Nat := 3

/-! ### Routing functions (`graph.py` lines 23-92) -/

/-- `should_validate_or_respond`. -/
def should_validate_or_respond (s : PipeState) : Node :=
  if s.pending_tool_call.isSome then .tool_executor
  else if s.special_response_type = some .OUT_OF_SCOPE ∨
      s.special_response_type = some .READ_ONLY then .responder
  else .validator

/-- `should_execute`; its "responder" label is mapped to the
`increment_retry` node by the conditional-edge dict (`graph.py` lines
158-165). -/
def should_execute (s : PipeState) : Node :=
  if s.is_valid then .executor else .increment_retry

/-- `should_retry` (evaluated on the state after `increment_retry` ran). -/
def should_retry (s : PipeState) : Node :=
  if s.special_response_type = some .OUT_OF_SCOPE ∨
      s.special_response_type = some .READ_ONLY ∨
      s.special_response_type = some .RESOURCE_NOT_FOUND then .responder
  else if ¬ s.is_valid ∧ s.retry_count < MAX_RETRIES then .sql_generator
  else .responder

/-- The `increment_retry` node. -/
def increment_retry_node (s : PipeState) : PipeState :=
  { s with retry_count := s.retry_count + 1 }

/-- `route_after_tool_execution`. -/
def route_after_tool_execution (s : PipeState) : Node :=
  match s.tool_results.getLast? with
  | none => .responder
  | some last =>
    if last.tool_name = "explore_column_values" ∧
        s.exploration_count < MAX_EXPLORATIONS then .sql_generator
    else .responder

/-! ### Node bodies -/

/-- `retrieval_node`, pipeline view: the three result sets are written into
the state (the failure behaviour is `retrieval_node` above — a raised error
never reaches the graph's routing, the request aborts). -/
def retrieval_apply (s : PipeState) (u : RetrievalUpdate) : PipeState :=
  { s with sql_pairs := u.sql_pairs
           metadata := u.metadata
           database_info := u.database_info }

/-- The `[OUT_OF_SCOPE]` / `[READ_ONLY]` markers `_parse_sql_response` can
return (`sql_generator.py` lines 246-253). -/
inductive GenSpecial
  | OUT_OF_SCOPE
  | READ_ONLY
deriving DecidableEq, Repr

def GenSpecial.toSpecial : GenSpecial → SpecialType
  | .OUT_OF_SCOPE => SpecialType.OUT_OF_SCOPE
  | .READ_ONLY => SpecialType.READ_ONLY

/-- The LLM outcome of one `sql_generator_node` invocation: either tool calls
(first one pending), or free text parsed by `_parse_sql_response` into
(sql?, explanation?, marker?). -/
inductive GenOutcome
  | toolCall (tc : ToolCall) (rest : List ToolCall)
  | text (sql : Option String) (explanation : Option String) (sp : Option GenSpecial)
deriving Repr, DecidableEq

/-- `sql_generator_node` (`sql_generator.py` lines 309-383): the returned
update dict, merged into the state. -/
def sql_generator_apply (s : PipeState) (o : GenOutcome) : PipeState :=
  match o with
  | .toolCall tc rest =>
    { s with generated_sql := tc.sqlArg
             sql_explanation := some "Executing query via tool call."
             special_response_type := none
             tool_calls := tc :: rest
             pending_tool_call := some tc }
  | .text sql explanation sp =>
    match sp with
    | some m =>
      { s with generated_sql := sql
               sql_explanation := explanation
               special_response_type := some m.toSpecial
               tool_calls := []
               pending_tool_call := none
               natural_language_response := explanation
               is_valid := false
               validation_errors := [] }
    | none =>
      { s with generated_sql := sql
               sql_explanation := explanation
               special_response_type := none
               tool_calls := []
               pending_tool_call := none }

/-- `validator_node` (`validator.py` lines 8-62), with the parser and the
`validate_tables_exist` outcome (all-exist flag, user-facing error) as
oracles. -/
def validator_apply (s : PipeState) (parse : String → ParseOutcome)
    (tablesCheck : Bool × Option String) : PipeState :=
  if s.special_response_type.isSome then
    { s with is_valid := false, validation_errors := [], validation_warnings := [] }
  else
    match s.generated_sql with
    | none =>
      { s with is_valid := false
               validation_errors := ["No SQL query was generated"]
               validation_warnings := [] }
    | some sql => validator_merge s (validate_sql parse sql) tablesCheck
where
  /-- Folding the `validate_sql` result and the table check into the update
  dict (`validator.py` lines 40-62). -/
  validator_merge (s : PipeState) (result : ValidationResult)
      (tablesCheck : Bool × Option String) : PipeState :=
    if result.is_valid ∧ ¬ tablesCheck.1 ∧ tablesCheck.2.isSome then
      { s with is_valid := false
               validation_errors := result.errors ++ [tablesCheck.2.getD ""]
               validation_warnings := result.warnings
               special_response_type := some .RESOURCE_NOT_FOUND }
    else
      { s with is_valid := result.is_valid
               validation_errors := result.errors
               validation_warnings := result.warnings }

/-- `executor_node`, pipeline view: `executor_node` above computes the update
dict; here it is merged into the state (success dict lines 122-133, which
does not touch `special_response_type`; `make_error` lines 69-82, which
overwrites it). -/
def executor_apply (s : PipeState) (count : Option Int)
    (fetch : Int → Int → FetchResult) (token : String) (csvMaxRows : Int) :
    PipeState :=
  match executor_node s.generated_sql s.is_valid s.page s.page_size count fetch
      token csvMaxRows with
  | .ok rows rc cols t hm csv tok =>
    { s with executed := true, results := some rows, row_count := some rc,
             columns := some cols, execution_error := none, total_count := t,
             has_more_results := hm, csv_available := true, csv_exceeds_limit := csv,
             query_token := some tok }
  | .err msg sp =>
    { s with executed := false, results := none, row_count := none, columns := none,
             execution_error := some msg, total_count := none,
             has_more_results := false, csv_available := false,
             csv_exceeds_limit := false, query_token := none,
             special_response_type := sp }

/-- The outcome of the dispatched tool inside `tool_executor_node`: `raised`
if the awaited tool call threw; otherwise the result dict of the tool that
matches `pending_tool_call.name` (`execResult` for `execute_sql_query`,
`exploreResult` for `explore_column_values`). -/
structure ToolOracle where
  raised : Option String
  execResult : ToolExecResult
  exploreResult : ExploreResult
  csvMaxRows : Int
deriving Repr

/-- `tool_executor_node` (`tool_executor.py` lines 20-153). -/
def tool_executor_apply (s : PipeState) (o : ToolOracle) : PipeState :=
  match s.pending_tool_call with
  | none => { s with tool_results := [], pending_tool_call := none }
  | some tc =>
    if ¬ (tc.name = "execute_sql_query" ∨ tc.name = "explore_column_values") then
      { s with
        tool_results := s.tool_results ++
          [⟨tc.id, tc.name, false, some ("Unknown tool: " ++ tc.name)⟩],
        pending_tool_call := none }
    else
      match o.raised with
      | some msg =>
        { s with
          tool_results := s.tool_results ++ [⟨tc.id, tc.name, false, some msg⟩],
          pending_tool_call := none,
          execution_error := some msg }
      | none =>
        if tc.name = "execute_sql_query" then
          if o.execResult.success then
            { s with
              tool_results := s.tool_results ++
                [⟨tc.id, tc.name, o.execResult.success, o.execResult.error⟩],
              pending_tool_call := none,
              is_valid := true, executed := true, results := o.execResult.rows,
              row_count := some o.execResult.row_count, columns := o.execResult.columns,
              total_count := o.execResult.total_count,
              has_more_results := o.execResult.has_more,
              query_token := o.execResult.query_token, csv_available := true,
              csv_exceeds_limit :=
                match o.execResult.total_count with
                | some t => decide (t > o.csvMaxRows)
                | none => false,
              execution_error := none }
          else
            { s with
              tool_results := s.tool_results ++
                [⟨tc.id, tc.name, o.execResult.success, o.execResult.error⟩],
              pending_tool_call := none,
              executed := false, execution_error := o.execResult.error }
        else
          let r := o.exploreResult
          let record : ExplorationRecord :=
            { table := r.table.getD (tc.tableArg.getD "")
              column := r.column.getD (tc.columnArg.getD "")
              search_term := r.search_term
              values := r.values.map Prod.fst
              counts := r.values
              total_distinct := r.total_distinct
              success := r.success }
          let discovered :=
            if r.success ∧ r.values ≠ [] then
              (record.table ++ "." ++ record.column,
                DiscoveredValue.mk record.values record.search_term) ::
                s.discovered_values.filter
                  (fun kv => kv.1 ≠ record.table ++ "." ++ record.column)
            else s.discovered_values
          { s with
            tool_results := s.tool_results ++ [⟨tc.id, tc.name, r.success, r.error⟩],
            pending_tool_call := none,
            exploration_count := s.exploration_count + 1,
            exploration_queries := s.exploration_queries ++ [record],
            discovered_values := discovered }

/-- `responder_node` templates (`responder.py` lines 13-33);
`NEEDS_CLARIFICATION` has no entry in the dict. -/
def RESPONSE_TEMPLATES : SpecialType → Option String
  | .OUT_OF_SCOPE => some
      ("I'm designed to help you query Azure and AWS cloud resource metadata only. " ++
        "I can help with questions about your cloud resources, their configurations, " ++
        "tags, and relationships. Please ask a question about your cloud resources.")
  | .READ_ONLY => some
      ("This system only supports querying (reading) cloud resource data. " ++
        "Data modifications are not permitted. " ++
        "How can I help you find information about your cloud resources?")
  | .RESOURCE_NOT_FOUND => some
      ("The information you requested cannot be provided because the resource type " ++
        "is not tracked in our database. Please try asking about a different resource type.")
  | .NEEDS_CLARIFICATION => none

def NO_RESULTS_TEMPLATE : String :=
  "No resources were found matching your criteria. " ++
    "This could mean the resources don't exist or don't match your filters. " ++
    "Try adjusting your query or ask about a different resource type."

/-- `_get_template_response` (`responder.py` lines 106-129). -/
def get_template_response (s : PipeState) : Option String :=
  if s.natural_language_response.isSome ∧ s.special_response_type.isSome then
    s.natural_language_response
  else
    match s.special_response_type with
    | some sp =>
      match RESPONSE_TEMPLATES sp with
      | some t => some t
      | none => noResultsCheck s
    | none => noResultsCheck s
where
  noResultsCheck (s : PipeState) : Option String :=
    if s.executed ∧ s.results = some [] then some NO_RESULTS_TEMPLATE else none

/-- `responder_node` (`responder.py` lines 132-169): a template response if
one applies, otherwise the LLM synthesis (oracle `llmText`). -/
def responder_apply (s : PipeState) (llmText : String) : PipeState :=
  let resp :=
    match get_template_response s with
    | some t => t
    | none => llmText
  { s with natural_language_response := some resp }

/-! ### The step relation -/

structure Config where
  node : Node
  state : PipeState
deriving Repr

/-- One stage execution of the compiled graph: run the node on the current
state, merge the update, and follow the (conditional) edge evaluated on the
merged state (`_build_graph`, `graph.py` lines 95-183).  External behaviour
(LLM, parser, schema catalog, database, cache token) is existentially fixed
per invocation by the constructor arguments. -/
inductive Step : Config → Config → Prop
  | retrieval (s : PipeState) (u : RetrievalUpdate) :
      Step ⟨.retrieval, s⟩ ⟨.sql_generator, retrieval_apply s u⟩
  | sql_generator (s : PipeState) (o : GenOutcome) :
      Step ⟨.sql_generator, s⟩
        ⟨should_validate_or_respond (sql_generator_apply s o), sql_generator_apply s o⟩
  | validator (s : PipeState) (parse : String → ParseOutcome)
      (tablesCheck : Bool × Option String) :
      Step ⟨.validator, s⟩
        ⟨should_execute (validator_apply s parse tablesCheck),
          validator_apply s parse tablesCheck⟩
  | increment_retry (s : PipeState) :
      Step ⟨.increment_retry, s⟩
        ⟨should_retry (increment_retry_node s), increment_retry_node s⟩
  | executor (s : PipeState) (count : Option Int) (fetch : Int → Int → FetchResult)
      (token : String) (csvMaxRows : Int) :
      Step ⟨.executor, s⟩ ⟨.responder, executor_apply s count fetch token csvMaxRows⟩
  | tool_executor (s : PipeState) (o : ToolOracle) :
      Step ⟨.tool_executor, s⟩
        ⟨route_after_tool_execution (tool_executor_apply s o), tool_executor_apply s o⟩
  | responder (s : PipeState) (llmText : String) :
      Step ⟨.responder, s⟩ ⟨.done, responder_apply s llmText⟩

/-- Zero or more stage executions. -/
inductive Reach : Config → Config → Prop
  | refl (c : Config) : Reach c c
  | tail {a b c : Config} : Reach a b → Step b c → Reach a c

/-- The entry configuration of a request. -/
def initConfig (question session_id : String) (page page_size : Int) : Config :=
  ⟨.retrieval, create_initial_state question session_id page page_size⟩

/-! ### A deterministic runner for concrete executions

`runPipeline` executes the same node bodies and routing functions as `Step`,
with the external outcomes supplied as consumable streams (one entry per
node invocation); it additionally counts the SqlGenerator invocations.  The
`Nat` is recursion fuel; `none` means fuel or a stream ran dry. -/

structure RunOracle where
  retrievalOutcome : RetrievalUpdate
  genOutcomes : List GenOutcome
  parses : List (String → ParseOutcome)
  tables : List (Bool × Option String)
  execCount : Option Int
  execFetch : Int → Int → FetchResult
  execToken : String
  csvMaxRows : Int
  toolOracles : List ToolOracle
  llmText : String

def runPipeline : Nat → RunOracle → Config → Nat → Option (Config × Nat)
  | 0, _, _, _ => none
  | fuel + 1, oc, c, gens =>
    match c.node with
    | .retrieval =>
      runPipeline fuel oc
        ⟨.sql_generator, retrieval_apply c.state oc.retrievalOutcome⟩ gens
    | .sql_generator =>
      match oc.genOutcomes with
      | [] => none
      | o :: rest =>
        runPipeline fuel { oc with genOutcomes := rest }
          ⟨should_validate_or_respond (sql_generator_apply c.state o),
            sql_generator_apply c.state o⟩ (gens + 1)
    | .validator =>
      match oc.parses, oc.tables with
      | parse :: ps, t :: ts =>
        runPipeline fuel { oc with parses := ps, tables := ts }
          ⟨should_execute (validator_apply c.state parse t),
            validator_apply c.state parse t⟩ gens
      | _, _ => none
    | .increment_retry =>
      runPipeline fuel oc
        ⟨should_retry (increment_retry_node c.state), increment_retry_node c.state⟩
        gens
    | .executor =>
      runPipeline fuel oc
        ⟨.responder,
          executor_apply c.state oc.execCount oc.execFetch oc.execToken oc.csvMaxRows⟩
        gens
    | .tool_executor =>
      match oc.toolOracles with
      | [] => none
      | o :: rest =>
        runPipeline fuel { oc with toolOracles := rest }
          ⟨route_after_tool_execution (tool_executor_apply c.state o),
            tool_executor_apply c.state o⟩ gens
    | .responder =>
      runPipeline fuel oc ⟨.done, responder_apply c.state oc.llmText⟩ gens
    | .done => some (c, gens)

/-! ### Node-level facts used by the pipeline invariants -/

theorem getLast?_append_singleton {α : Type} (l : List α) (a : α) :
    (l ++ [a]).getLast? = some a := by
  induction l with
  | nil => rfl
  | cons b tl ih =>
    rw [List.cons_append, List.getLast?_cons, ih]
    rfl

theorem retrieval_apply_counters (s : PipeState) (u : RetrievalUpdate) :
    (retrieval_apply s u).retry_count = s.retry_count ∧
    (retrieval_apply s u).exploration_count = s.exploration_count ∧
    (retrieval_apply s u).executed = s.executed ∧
    (retrieval_apply s u).is_valid = s.is_valid :=
  ⟨rfl, rfl, rfl, rfl⟩

theorem sql_generator_apply_counters (s : PipeState) (o : GenOutcome) :
    (sql_generator_apply s o).retry_count = s.retry_count ∧
    (sql_generator_apply s o).exploration_count = s.exploration_count ∧
    (sql_generator_apply s o).executed = s.executed := by
  cases o with
  | toolCall tc rest => exact ⟨rfl, rfl, rfl⟩
  | text sql e sp => cases sp <;> exact ⟨rfl, rfl, rfl⟩

theorem validator_apply_counters (s : PipeState) (parse : String → ParseOutcome)
    (tablesCheck : Bool × Option String) :
    (validator_apply s parse tablesCheck).retry_count = s.retry_count ∧
    (validator_apply s parse tablesCheck).exploration_count = s.exploration_count ∧
    (validator_apply s parse tablesCheck).executed = s.executed := by
  unfold validator_apply
  split
  · exact ⟨rfl, rfl, rfl⟩
  · split
    · exact ⟨rfl, rfl, rfl⟩
    · unfold validator_apply.validator_merge
      split
      · exact ⟨rfl, rfl, rfl⟩
      · exact ⟨rfl, rfl, rfl⟩

theorem executor_apply_counters (s : PipeState) (count : Option Int)
    (fetch : Int → Int → FetchResult) (token : String) (csvMaxRows : Int) :
    (executor_apply s count fetch token csvMaxRows).retry_count = s.retry_count ∧
    (executor_apply s count fetch token csvMaxRows).exploration_count
      = s.exploration_count := by
  unfold executor_apply
  split
  · exact ⟨rfl, rfl⟩
  · exact ⟨rfl, rfl⟩

theorem tool_executor_apply_counters (s : PipeState) (o : ToolOracle) :
    (tool_executor_apply s o).retry_count = s.retry_count ∧
    ((tool_executor_apply s o).exploration_count = s.exploration_count ∨
      (tool_executor_apply s o).exploration_count = s.exploration_count + 1) := by
  unfold tool_executor_apply
  split
  · exact ⟨rfl, Or.inl rfl⟩
  · split
    · exact ⟨rfl, Or.inl rfl⟩
    · split
      · exact ⟨rfl, Or.inl rfl⟩
      · split
        · split
          · exact ⟨rfl, Or.inl rfl⟩
          · exact ⟨rfl, Or.inl rfl⟩
        · exact ⟨rfl, Or.inr rfl⟩

theorem responder_apply_counters (s : PipeState) (llmText : String) :
    (responder_apply s llmText).retry_count = s.retry_count ∧
    (responder_apply s llmText).exploration_count = s.exploration_count ∧
    (responder_apply s llmText).executed = s.executed ∧
    (responder_apply s llmText).is_valid = s.is_valid :=
  ⟨rfl, rfl, rfl, rfl⟩

theorem should_retry_cases (s : PipeState) :
    should_retry s = Node.sql_generator ∨ should_retry s = Node.responder := by
  unfold should_retry
  split
  · exact Or.inr rfl
  · split
    · exact Or.inl rfl
    · exact Or.inr rfl

theorem should_retry_gen (s : PipeState) (h : should_retry s = Node.sql_generator) :
    s.retry_count < MAX_RETRIES ∧ s.is_valid = false := by
  unfold should_retry at h
  split at h
  · cases h
  · split at h
    · rename_i hc
      exact ⟨hc.2, by rw [Bool.not_eq_true] at hc; exact hc.1⟩
  -- second branch: `responder = sql_generator` is absurd
    · cases h

theorem route_after_cases (s : PipeState) :
    route_after_tool_execution s = Node.sql_generator ∨
      route_after_tool_execution s = Node.responder := by
  unfold route_after_tool_execution
  split
  · exact Or.inr rfl
  · split
    · exact Or.inl rfl
    · exact Or.inr rfl

theorem route_after_gen (s : PipeState)
    (h : route_after_tool_execution s = Node.sql_generator) :
    s.exploration_count < MAX_EXPLORATIONS ∧
      ∃ last, s.tool_results.getLast? = some last ∧
        last.tool_name = "explore_column_values" := by
  unfold route_after_tool_execution at h
  split at h
  · cases h
  · split at h
    · rename_i last hlast hc
      exact ⟨hc.2, last, hlast, hc.1⟩
    · cases h

theorem should_validate_cases (s : PipeState) :
    should_validate_or_respond s = Node.tool_executor ∨
      should_validate_or_respond s = Node.responder ∨
      should_validate_or_respond s = Node.validator := by
  unfold should_validate_or_respond
  split
  · exact Or.inl rfl
  · split
    · exact Or.inr (Or.inl rfl)
    · exact Or.inr (Or.inr rfl)

theorem should_execute_cases (s : PipeState) :
    should_execute s = Node.executor ∨ should_execute s = Node.increment_retry := by
  unfold should_execute
  split
  · exact Or.inl rfl
  · exact Or.inr rfl

/-! ### Pipeline invariants -/

/-- The retry / exploration counter invariant: both bounds hold everywhere,
and strictly before the terminal stages the counters are still at least one
increment below their bounds (each back-edge is guarded by a `<` test on the
already-incremented counter). -/
def counterInv (c : Config) : Prop :=
  c.state.retry_count ≤ MAX_RETRIES ∧
  c.state.exploration_count ≤ MAX_EXPLORATIONS ∧
  (c.node ≠ Node.responder ∧ c.node ≠ Node.done →
    c.state.retry_count ≤ 1 ∧ c.state.exploration_count ≤ 2)

theorem step_counterInv {c c2 : Config} (h : Step c c2) (hI : counterInv c) :
    counterInv c2 := by
  obtain ⟨hr, he, hstrict⟩ := hI
  cases h with
  | retrieval s u =>
    unfold counterInv
    dsimp only at hr he hstrict ⊢
    obtain ⟨e1, e2, _, _⟩ := retrieval_apply_counters s u
    have hs := hstrict ⟨by decide, by decide⟩
    exact ⟨by omega, by omega, fun _ => by omega⟩
  | sql_generator s o =>
    unfold counterInv
    dsimp only at hr he hstrict ⊢
    obtain ⟨e1, e2, _⟩ := sql_generator_apply_counters s o
    have hs := hstrict ⟨by decide, by decide⟩
    exact ⟨by omega, by omega, fun _ => by omega⟩
  | validator s parse tablesCheck =>
    unfold counterInv
    dsimp only at hr he hstrict ⊢
    obtain ⟨e1, e2, _⟩ := validator_apply_counters s parse tablesCheck
    have hs := hstrict ⟨by decide, by decide⟩
    exact ⟨by omega, by omega, fun _ => by omega⟩
  | increment_retry s =>
    unfold counterInv
    dsimp only at hr he hstrict ⊢
    have hs := hstrict ⟨by decide, by decide⟩
    have e1 : (increment_retry_node s).retry_count = s.retry_count + 1 := rfl
    have e2 : (increment_retry_node s).exploration_count = s.exploration_count := rfl
    refine ⟨by unfold MAX_RETRIES; omega, by omega, fun hlive => ?_⟩
    rcases should_retry_cases (increment_retry_node s) with hgen | hresp
    · have := (should_retry_gen _ hgen).1
      unfold MAX_RETRIES at this
      exact ⟨by omega, by omega⟩
    · rw [hresp] at hlive
      exact absurd rfl hlive.1
  | executor s count fetch token csvMaxRows =>
    unfold counterInv
    dsimp only at hr he hstrict ⊢
    obtain ⟨e1, e2⟩ := executor_apply_counters s count fetch token csvMaxRows
    have hs := hstrict ⟨by decide, by decide⟩
    refine ⟨by omega, by omega, fun hlive => absurd rfl hlive.1⟩
  | tool_executor s o =>
    unfold counterInv
    dsimp only at hr he hstrict ⊢
    obtain ⟨e1, e2⟩ := tool_executor_apply_counters s o
    have hs := hstrict ⟨by decide, by decide⟩
    refine ⟨by omega, ?_, fun hlive => ?_⟩
    · rcases e2 with e2 | e2 <;> unfold MAX_EXPLORATIONS <;> omega
    · rcases route_after_cases (tool_executor_apply s o) with hgen | hresp
      · have := (route_after_gen _ hgen).1
        unfold MAX_EXPLORATIONS at this
        exact ⟨by omega, by omega⟩
      · rw [hresp] at hlive
        exact absurd rfl hlive.1
  | responder s llmText =>
    unfold counterInv
    dsimp only at hr he hstrict ⊢
    obtain ⟨e1, e2, _, _⟩ := responder_apply_counters s llmText
    exact ⟨by omega, by omega, fun hlive => absurd rfl hlive.2⟩

theorem reach_counterInv {a b : Config} (h : Reach a b) (hI : counterInv a) :
    counterInv b := by
  induction h with
  | refl => exact hI
  | tail _ hstep ih => exact step_counterInv hstep ih

theorem initConfig_counterInv (q sid : String) (p ps : Int) :
    counterInv (initConfig q sid p ps) := by
  refine ⟨?_, ?_, fun _ => ⟨?_, ?_⟩⟩ <;> simp [initConfig, create_initial_state]

/-- Inversion for the success constructor of `executor_node`: the node
refuses to run on an invalid state, so an `ok` result forces
`is_valid = true`. -/
theorem executor_node_ok_valid {gs : Option String} {iv : Bool} {p ps : Int}
    {cnt : Option Int} {f : Int → Int → FetchResult} {tok : String} {m : Int}
    {r1 : List Row} {r2 : Nat} {r3 : List String} {r4 : Option Int} {r5 r6 : Bool}
    {r7 : String}
    (h : executor_node gs iv p ps cnt f tok m = .ok r1 r2 r3 r4 r5 r6 r7) :
    iv = true := by
  unfold executor_node at h
  cases gs with
  | none => cases h
  | some sql =>
    cases hb : iv with
    | true => rfl
    | false =>
      rw [hb] at h
      simp only [Bool.false_eq_true, not_false_iff, if_true] at h
      cases h

/-- The `executed ⇒ is_valid` invariant, with the auxiliary fact that
`executed` is still false at every node that can precede Executor or
ToolExecutor. -/
def execInv (c : Config) : Prop :=
  (c.state.executed = true → c.state.is_valid = true) ∧
  ((c.node = Node.retrieval ∨ c.node = Node.sql_generator ∨
      c.node = Node.validator ∨ c.node = Node.increment_retry ∨
      c.node = Node.tool_executor) → c.state.executed = false)

theorem step_execInv {c c2 : Config} (h : Step c c2) (hI : execInv c) :
    execInv c2 := by
  obtain ⟨himp, hpre⟩ := hI
  cases h with
  | retrieval s u =>
    unfold execInv
    dsimp only at himp hpre ⊢
    have hex : s.executed = false := hpre (Or.inl rfl)
    obtain ⟨_, _, e3, e4⟩ := retrieval_apply_counters s u
    exact ⟨fun hh => absurd (e3 ▸ hh) (by rw [hex]; decide), fun _ => e3 ▸ hex⟩
  | sql_generator s o =>
    unfold execInv
    dsimp only at himp hpre ⊢
    have hex : s.executed = false := hpre (Or.inr (Or.inl rfl))
    obtain ⟨_, _, e3⟩ := sql_generator_apply_counters s o
    exact ⟨fun hh => absurd (e3 ▸ hh) (by rw [hex]; decide), fun _ => e3 ▸ hex⟩
  | validator s parse tablesCheck =>
    unfold execInv
    dsimp only at himp hpre ⊢
    have hex : s.executed = false := hpre (Or.inr (Or.inr (Or.inl rfl)))
    obtain ⟨_, _, e3⟩ := validator_apply_counters s parse tablesCheck
    exact ⟨fun hh => absurd (e3 ▸ hh) (by rw [hex]; decide), fun _ => e3 ▸ hex⟩
  | increment_retry s =>
    unfold execInv
    dsimp only at himp hpre ⊢
    have hex : s.executed = false := hpre (Or.inr (Or.inr (Or.inr (Or.inl rfl))))
    have e3 : (increment_retry_node s).executed = s.executed := rfl
    have e4 : (increment_retry_node s).is_valid = s.is_valid := rfl
    exact ⟨fun hh => absurd (e3 ▸ hh) (by rw [hex]; decide), fun _ => e3 ▸ hex⟩
  | executor s count fetch token csvMaxRows =>
    unfold execInv
    dsimp only at himp hpre ⊢
    refine ⟨?_, fun hn => by rcases hn with h | h | h | h | h <;> cases h⟩
    unfold executor_apply
    split
    · rename_i r1 r2 r3 r4 r5 r6 r7 heq
      intro _
      show s.is_valid = true
      exact executor_node_ok_valid heq
    · intro hh
      cases hh
  | tool_executor s o =>
    unfold execInv
    dsimp only at himp hpre ⊢
    have hex : s.executed = false := hpre (Or.inr (Or.inr (Or.inr (Or.inr rfl))))
    constructor
    · unfold tool_executor_apply
      split
      · intro hh
        exact absurd hh (by rw [hex]; decide)
      · split
        · intro hh
          exact absurd hh (by rw [hex]; decide)
        · split
          · intro hh
            exact absurd hh (by rw [hex]; decide)
          · split
            · split
              · intro _
                rfl
              · intro hh
                exact Bool.noConfusion hh
            · intro hh
              exact absurd hh (by rw [hex]; decide)
    · intro hn
      by_cases hroute : route_after_tool_execution (tool_executor_apply s o)
          = Node.responder
      · exfalso
        rcases hn with h | h | h | h | h <;> rw [hroute] at h <;> cases h
      · have hgen : route_after_tool_execution (tool_executor_apply s o)
            = Node.sql_generator := by
          rcases route_after_cases (tool_executor_apply s o) with h | h
          · exact h
          · exact absurd h hroute
        obtain ⟨_, last, hlast, hexp⟩ := route_after_gen _ hgen
        revert hlast hexp
        unfold tool_executor_apply
        split
        · intro hlast _
          simp at hlast
        · split
          · intro _ _
            exact hex
          · split
            · intro _ _
              exact hex
            · split
              · split
                · -- execute_sql_query succeeded: the appended result is named
                  -- "execute_sql_query", so the route cannot be the explore
                  -- loop; contradiction with `hexp`.
                  rename_i hname hsucc
                  intro hlast hexp
                  exfalso
                  simp only [getLast?_append_singleton, Option.some.injEq] at hlast
                  rw [← hlast] at hexp
                  dsimp only at hexp
                  rw [hname] at hexp
                  exact absurd hexp (by decide)
                · intro _ _
                  rfl
              · intro _ _
                exact hex
  | responder s llmText =>
    unfold execInv
    dsimp only at himp hpre ⊢
    obtain ⟨_, _, e3, e4⟩ := responder_apply_counters s llmText
    refine ⟨fun hh => ?_, fun hn => by rcases hn with h | h | h | h | h <;> cases h⟩
    rw [e4]
    exact himp (e3 ▸ hh)

theorem reach_execInv {a b : Config} (h : Reach a b) (hI : execInv a) : execInv b := by
  induction h with
  | refl => exact hI
  | tail _ hstep ih => exact step_execInv hstep ih

theorem initConfig_execInv (q sid : String) (p ps : Int) :
    execInv (initConfig q sid p ps) := by
  constructor
  · intro hh
    exact absurd hh (by simp [initConfig, create_initial_state])
  · intro _
    rfl

/-- C3's locked region: once the Validator has produced
`RESOURCE_NOT_FOUND`, the pipeline can only sit at `increment_retry`,
`responder` or END, with the special type and `is_valid = false` frozen. -/
def rnfLocked (c : Config) : Prop :=
  (c.node = Node.increment_retry ∨ c.node = Node.responder ∨ c.node = Node.done) ∧
  c.state.special_response_type = some SpecialType.RESOURCE_NOT_FOUND ∧
  c.state.is_valid = false

theorem step_rnfLocked {c c2 : Config} (h : Step c c2) (hI : rnfLocked c) :
    rnfLocked c2 := by
  obtain ⟨hnode, hsp, hiv⟩ := hI
  cases h with
  | retrieval s u => rcases hnode with h | h | h <;> cases h
  | sql_generator s o => rcases hnode with h | h | h <;> cases h
  | validator s parse tablesCheck => rcases hnode with h | h | h <;> cases h
  | executor s count fetch token csvMaxRows => rcases hnode with h | h | h <;> cases h
  | tool_executor s o => rcases hnode with h | h | h <;> cases h
  | increment_retry s =>
    dsimp only at hsp hiv ⊢
    have hsp2 : (increment_retry_node s).special_response_type =
        some SpecialType.RESOURCE_NOT_FOUND := hsp
    have hiv2 : (increment_retry_node s).is_valid = false := hiv
    have hroute : should_retry (increment_retry_node s) = Node.responder := by
      unfold should_retry
      rw [if_pos (Or.inr (Or.inr hsp2))]
    rw [hroute]
    exact ⟨Or.inr (Or.inl rfl), hsp2, hiv2⟩
  | responder s llmText =>
    dsimp only at hsp hiv ⊢
    exact ⟨Or.inr (Or.inr rfl), hsp, hiv⟩

theorem reach_rnfLocked {a b : Config} (h : Reach a b) (hI : rnfLocked a) :
    rnfLocked b := by
  induction h with
  | refl => exact hI
  | tail _ hstep ih => exact step_rnfLocked hstep ih

/-- If the Validator's update carries `RESOURCE_NOT_FOUND`, its `is_valid` is
false (every branch that can set or keep a special type sets
`is_valid = false`). -/
theorem validator_apply_rnf_invalid (s : PipeState) (parse : String → ParseOutcome)
    (tablesCheck : Bool × Option String)
    (h : (validator_apply s parse tablesCheck).special_response_type =
      some SpecialType.RESOURCE_NOT_FOUND) :
    (validator_apply s parse tablesCheck).is_valid = false := by
  revert h
  unfold validator_apply
  split
  · intro _
    rfl
  · rename_i hnone
    split
    · intro _
      rfl
    · unfold validator_apply.validator_merge
      split
      · intro _
        rfl
      · intro h
        exfalso
        dsimp only at h
        rw [Bool.not_eq_true] at hnone
        rw [h] at hnone
        exact Bool.noConfusion hnone

/-! ### Lemmas about the keyword scan -/

theorem scanStepF_mem (cleaned : String) (errors : List String) (kv : String × String)
    (e : String) (h : e ∈ scanStepF cleaned errors kv) :
    e ∈ errors ∨ e = kv.2 ∨ e = READ_ONLY_SUGGESTION := by
  unfold scanStepF at h
  split at h
  · split at h
    · simp [List.mem_append] at h
      tauto
    · simp [List.mem_append] at h
      tauto
  · tauto

theorem scanFold_mem (cleaned : String) :
    ∀ (l : List (String × String)) (init : List String) (e : String),
      e ∈ l.foldl (scanStepF cleaned) init →
      e ∈ init ∨ (∃ kv ∈ l, e = kv.2) ∨ e = READ_ONLY_SUGGESTION := by
  intro l
  induction l with
  | nil => intro init e h; simp [List.foldl] at h; tauto
  | cons kv tl ih =>
    intro init e h
    rw [List.foldl_cons] at h
    rcases ih (scanStepF cleaned init kv) e h with h1 | h2 | h3
    · rcases scanStepF_mem cleaned init kv e h1 with g1 | g2 | g3
      · tauto
      · exact Or.inr (Or.inl ⟨kv, by simp, g2⟩)
      · tauto
    · obtain ⟨kw, hkw, he⟩ := h2
      exact Or.inr (Or.inl ⟨kw, by simp [hkw], he⟩)
    · tauto

theorem scanStepF_length (cleaned : String) (errors : List String) (kv : String × String) :
    errors.length ≤ (scanStepF cleaned errors kv).length := by
  unfold scanStepF
  split
  · split <;> simp
  · simp

theorem scanStepF_pos (cleaned : String) (errors : List String) (kv : String × String)
    (h : containsWholeWordCI cleaned kv.1 = true) :
    1 ≤ (scanStepF cleaned errors kv).length := by
  unfold scanStepF
  rw [if_pos h]
  split <;> simp <;> omega

theorem scanFold_length (cleaned : String) :
    ∀ (l : List (String × String)) (init : List String),
      init.length ≤ (l.foldl (scanStepF cleaned) init).length := by
  intro l
  induction l with
  | nil => intro init; simp
  | cons kv tl ih =>
    intro init
    rw [List.foldl_cons]
    exact le_trans (scanStepF_length cleaned init kv) (ih _)

theorem scanFold_ne_nil (cleaned : String) :
    ∀ (l : List (String × String)) (init : List String) (kv : String × String),
      kv ∈ l → containsWholeWordCI cleaned kv.1 = true →
      l.foldl (scanStepF cleaned) init ≠ [] := by
  intro l
  induction l with
  | nil => intro init kv h; simp at h
  | cons hd tl ih =>
    intro init kv hmem hkw
    rw [List.foldl_cons]
    rcases List.mem_cons.mp hmem with rfl | htl
    · have h1 := scanStepF_pos cleaned init kv hkw
      have h2 := scanFold_length cleaned tl (scanStepF cleaned init kv)
      intro hnil
      rw [hnil, List.length_nil] at h2
      omega
    · exact ih _ kv htl hkw

/-! ## Claim theorems -/

/-- C1: whenever a prohibited keyword (DROP/DELETE/TRUNCATE/ALTER/CREATE/
INSERT/UPDATE/GRANT/REVOKE/EXEC/EXECUTE) occurs as a whole word, in any letter
case, in the comment-stripped SQL, `validate_sql` returns `is_valid = false`
and every string in `errors` is one of the fixed `PROHIBITED_OPERATIONS`
messages or the fixed suggestion sentence — never a raw keyword dump.  The
result holds for every behaviour of the external `sqlglot` parser. -/
theorem c1_prohibited_keyword_rejection (parse : String → ParseOutcome) (sql : String)
    (h : ∃ kv ∈ PROHIBITED_OPERATIONS, containsWholeWordCI (cleanSql sql) kv.1 = true) :
    (validate_sql parse sql).is_valid = false ∧
    ∀ e ∈ (validate_sql parse sql).errors,
      (∃ kv ∈ PROHIBITED_OPERATIONS, e = kv.2) ∨ e = READ_ONLY_SUGGESTION := by
  obtain ⟨kv, hmem, hkw⟩ := h
  have hne : scanProhibited (cleanSql sql) ≠ [] :=
    scanFold_ne_nil (cleanSql sql) PROHIBITED_OPERATIONS [] kv hmem hkw
  have hempty : (scanProhibited (cleanSql sql)).isEmpty = false := by
    cases hc : scanProhibited (cleanSql sql) with
    | nil => exact absurd hc hne
    | cons a l => simp [List.isEmpty]
  have hval : validate_sql parse sql =
      ⟨false, scanProhibited (cleanSql sql), [], SQLCategory.UNKNOWN⟩ := by
    unfold validate_sql
    simp only [hempty, Bool.false_eq_true, if_false]
  rw [hval]
  refine ⟨rfl, ?_⟩
  intro e he
  simp only at he
  rcases scanFold_mem (cleanSql sql) PROHIBITED_OPERATIONS [] e he with h1 | h2 | h3
  · simp at h1
  · exact Or.inl h2
  · exact Or.inr h3

/-- C10: `execute_sql_query` clamps `page_size` into `[1, 500]` and `page`
into `[1, 10000]` before computing the offset; the paginated fetch is only
ever consulted at `offset = (page - 1) * page_size` after those clamps, which
lies in `[0, 9999 * 500]` for all integer inputs, in particular is never
negative. -/
theorem c10_offset_clamped (parse : String → ParseOutcome)
    (tablesCheck : Bool × Option String) (countResult : Option Int)
    (fetch : Int → Int → FetchResult) (token : String) (sqlMaxRows : Int)
    (sql : String) (page page_size : Int) :
    execute_sql_query parse tablesCheck countResult fetch token sqlMaxRows
        sql page page_size =
      execute_sql_query parse tablesCheck countResult
        (fun _ lim => fetch (execute_sql_query_offset page page_size) lim)
        token sqlMaxRows sql page page_size ∧
    0 ≤ execute_sql_query_offset page page_size ∧
    execute_sql_query_offset page page_size ≤ 9999 * 500 := by
  refine ⟨rfl, ?_, ?_⟩
  · unfold execute_sql_query_offset
    have h1 : 1 ≤ min (max page 1) 10000 := le_min (le_max_right page 1) (by norm_num)
    have h2 : 1 ≤ max (min page_size 500) 1 := le_max_right _ 1
    exact mul_nonneg (by omega) (by omega)
  · unfold execute_sql_query_offset
    have h1 : min (max page 1) 10000 ≤ 10000 := min_le_right _ _
    have h2 : max (min page_size 500) 1 ≤ 500 :=
      max_le (le_trans (min_le_right _ _) (by norm_num)) (by norm_num)
    have h3 : 1 ≤ max (min page_size 500) 1 := le_max_right _ 1
    calc (min (max page 1) 10000 - 1) * max (min page_size 500) 1
        ≤ 9999 * 500 := by
          apply mul_le_mul (by omega) h2 (by omega) (by norm_num)

/-- In `executor_node` the returned `has_more_results` is true iff
`total_count` is known and `offset + returned_row_count < total_count`. -/
theorem executor_has_more_iff (generated_sql : Option String) (is_valid : Bool)
    (page page_size : Int) (count : Option Int) (fetch : Int → Int → FetchResult)
    (token : String) (csvMaxRows : Int) :
    ((executor_node generated_sql is_valid page page_size count fetch token
        csvMaxRows).has_more_results = true ↔
      ∃ t, (executor_node generated_sql is_valid page page_size count fetch token
          csvMaxRows).total_count = some t ∧
        (page - 1) * page_size +
          ((executor_node generated_sql is_valid page page_size count fetch token
            csvMaxRows).returned_rows.length : Int) < t) := by
  unfold executor_node
  match generated_sql with
  | none => simp [ExecutorResult.has_more_results, ExecutorResult.total_count]
  | some sql =>
    by_cases hv : is_valid
    · simp only [hv, not_true, if_false]
      by_cases hs : (fetch ((page - 1) * page_size) page_size).success
      · simp only [hs, if_true]
        cases count with
        | none =>
          simp [ExecutorResult.has_more_results, ExecutorResult.total_count]
        | some t =>
          simp [ExecutorResult.has_more_results, ExecutorResult.total_count,
            ExecutorResult.returned_rows]
      · simp only [hs, if_false]
        simp [ExecutorResult.has_more_results, ExecutorResult.total_count]
    · simp [hv, ExecutorResult.has_more_results, ExecutorResult.total_count]

/-- In the `execute_sql_query` tool, `has_more` is true iff the fetch
succeeded and either `total_count` is known and
`offset + row_count < total_count`, or — unlike `executor_node` —
`total_count` is unknown and the page came back full. -/
theorem tool_has_more_iff (parse : String → ParseOutcome)
    (tablesCheck : Bool × Option String) (countResult : Option Int)
    (fetch : Int → Int → FetchResult) (token : String) (sqlMaxRows : Int)
    (sql : String) (page page_size : Int) :
    (execute_sql_query parse tablesCheck countResult fetch token sqlMaxRows
        sql page page_size).has_more = true ↔
      (execute_sql_query parse tablesCheck countResult fetch token sqlMaxRows
          sql page page_size).success = true ∧
        ((∃ t, (execute_sql_query parse tablesCheck countResult fetch token sqlMaxRows
              sql page page_size).total_count = some t ∧
            execute_sql_query_offset page page_size +
              ((execute_sql_query parse tablesCheck countResult fetch token sqlMaxRows
                sql page page_size).row_count : Int) < t) ∨
          ((execute_sql_query parse tablesCheck countResult fetch token sqlMaxRows
              sql page page_size).total_count = none ∧
            ((execute_sql_query parse tablesCheck countResult fetch token sqlMaxRows
              sql page page_size).row_count : Int) =
              execute_sql_query_effective_page_size page_size sqlMaxRows)) := by
  unfold execute_sql_query
  by_cases hv : (validate_sql parse sql).is_valid
  · simp only [hv, not_true, if_false]
    by_cases ht : ¬ tablesCheck.1 ∧ tablesCheck.2.isSome
    · simp [ht, _error_result]
    · simp only [ht, if_false]
      by_cases hs : (fetch ((min (max page 1) 10000 - 1) * max (min page_size 500) 1)
          (min (max (min page_size 500) 1) sqlMaxRows)).success
      · simp only [hs, not_true, if_false]
        cases countResult with
        | none =>
          simp [execute_sql_query_offset, execute_sql_query_effective_page_size]
        | some t =>
          simp [execute_sql_query_offset, execute_sql_query_effective_page_size]
      · simp [hs, _error_result]
  · simp [hv, _error_result]

/-- C6 (amended): `executor_node` satisfies the spec's `has_more` contract
exactly (`has_more_results = true` iff `total_count` is known and
`offset + returned_row_count < total_count`); the `execute_sql_query` tool
satisfies it only when `total_count` is known — when the count query failed
(`total_count = none`) it additionally reports `has_more = true` whenever the
fetched page is full. -/
theorem c6_has_more_characterization :
    (∀ (generated_sql : Option String) (is_valid : Bool) (page page_size : Int)
        (count : Option Int) (fetch : Int → Int → FetchResult) (token : String)
        (csvMaxRows : Int),
      (executor_node generated_sql is_valid page page_size count fetch token
          csvMaxRows).has_more_results = true ↔
        ∃ t, (executor_node generated_sql is_valid page page_size count fetch token
            csvMaxRows).total_count = some t ∧
          (page - 1) * page_size +
            ((executor_node generated_sql is_valid page page_size count fetch token
              csvMaxRows).returned_rows.length : Int) < t) ∧
    (∀ (parse : String → ParseOutcome) (tablesCheck : Bool × Option String)
        (countResult : Option Int) (fetch : Int → Int → FetchResult) (token : String)
        (sqlMaxRows : Int) (sql : String) (page page_size : Int),
      (execute_sql_query parse tablesCheck countResult fetch token sqlMaxRows
          sql page page_size).has_more = true ↔
        (execute_sql_query parse tablesCheck countResult fetch token sqlMaxRows
            sql page page_size).success = true ∧
          ((∃ t, (execute_sql_query parse tablesCheck countResult fetch token sqlMaxRows
                sql page page_size).total_count = some t ∧
              execute_sql_query_offset page page_size +
                ((execute_sql_query parse tablesCheck countResult fetch token sqlMaxRows
                  sql page page_size).row_count : Int) < t) ∨
            ((execute_sql_query parse tablesCheck countResult fetch token sqlMaxRows
                sql page page_size).total_count = none ∧
              ((execute_sql_query parse tablesCheck countResult fetch token sqlMaxRows
                sql page page_size).row_count : Int) =
                execute_sql_query_effective_page_size page_size sqlMaxRows))) :=
  ⟨fun a b c d e f g h => executor_has_more_iff a b c d e f g h,
    fun a b c d e f g h i => tool_has_more_iff a b c d e f g h i⟩

/-- C6 counterexample: with the count query unavailable (`total_count = none`)
and a full single-row page, the `execute_sql_query` tool reports
`has_more = true` even though `total_count` is unknown, so the claimed "iff"
(`has_more` true only when `total_count` is known) is false as stated. -/
theorem c6_counterexample :
    (execute_sql_query (fun _ => ParseOutcome.parsed [some "SELECT"]) (true, none) none
        (fun _ _ => ⟨true, [[("a", "1")]], ["a"], none⟩) "tok" 1000
        "SELECT a FROM t LIMIT 1" 1 1).has_more = true ∧
    (execute_sql_query (fun _ => ParseOutcome.parsed [some "SELECT"]) (true, none) none
        (fun _ _ => ⟨true, [[("a", "1")]], ["a"], none⟩) "tok" 1000
        "SELECT a FROM t LIMIT 1" 1 1).total_count = none := by
  constructor
  · rfl
  · rfl

/-- C7 counterexample: when the first context search fails, `retrieval_node`
does not return with empty result sets — the `VectorStoreError` propagates
out of the stage (so the pipeline does not continue to the SqlGenerator). -/
theorem c7_counterexample :
    retrieval_node (Except.error "boom") (Except.ok []) (Except.ok []) =
      Except.error "Failed to search SQL pairs: boom" := rfl

/-- C7 (amended): a failing context search propagates out of the Retrieval
stage as a `VectorStoreError` (aborting the request at the caller's
top-level handler); the stage returns the three result sets iff all three
searches succeed. -/
theorem c7_retrieval_propagates :
    (∀ (r1 r2 r3 : Except String (List CtxDoc)) (e : String),
      r1 = Except.error e →
      retrieval_node r1 r2 r3 =
        Except.error ("Failed to search SQL pairs: " ++ e)) ∧
    (∀ (r1 r2 r3 : Except String (List CtxDoc)) (a b c : List CtxDoc),
      retrieval_node r1 r2 r3 = Except.ok ⟨a, b, c⟩ ↔
        (r1 = Except.ok a ∧ r2 = Except.ok b ∧ r3 = Except.ok c)) := by
  constructor
  · intro r1 r2 r3 e he
    subst he
    rfl
  · intro r1 r2 r3 a b c
    cases r1 with
    | error e1 => simp [retrieval_node, searchWrap, Bind.bind, Except.bind]
    | ok v1 =>
      cases r2 with
      | error e2 => simp [retrieval_node, searchWrap, Bind.bind, Except.bind]
      | ok v2 =>
        cases r3 with
        | error e3 => simp [retrieval_node, searchWrap, Bind.bind, Except.bind]
        | ok v3 =>
          simp [retrieval_node, searchWrap, Bind.bind, Except.bind, pure, Except.pure,
            RetrievalUpdate.mk.injEq]

/-- Concrete instance for C7 (amended): the error-propagation half applied at
a failing first search. -/
theorem c7_witness :
    retrieval_node (Except.error "x") (Except.ok ["d"]) (Except.ok []) =
      Except.error "Failed to search SQL pairs: x" :=
  c7_retrieval_propagates.1 (Except.error "x") (Except.ok ["d"]) (Except.ok []) "x" rfl

/-- C8 counterexample: `explore_column_values` never checks the column name
against a known-column set (the embedding has no such input because the
source consults none).  With known table "users" and a column "ghost_col"
that no schema lists, the tool proceeds to the database — the result depends
on the database outcome and is `success = true` when the query happens to
succeed — instead of failing fast with `success = false` and no query. -/
theorem c8_counterexample :
    (explore_column_values ["users"] (Except.ok ([("x", 5)], 1))
        "users" "ghost_col" none 20).success = true ∧
    explore_column_values ["users"] (Except.ok ([("x", 5)], 1))
        "users" "ghost_col" none 20 ≠
      explore_column_values ["users"] (Except.error "db down")
        "users" "ghost_col" none 20 := by
  constructor
  · rfl
  · decide

/-- C8 (amended): the pre-query checks of `explore_column_values` are the
identifier shape of both names and membership of the (prefix-stripped,
lowercased) table name in the known-table set.  When any of these fails the
tool returns `success = false` with a non-null error and issues no database
query (the result is independent of the database outcome).  An unknown
column of a known table is *not* rejected: the query is issued. -/
theorem c8_reject_before_query (knownTables : List String)
    (db : Except String (List (String × Int) × Int))
    (table_name column_name : String) (search_term : Option String) (limit : Int)
    (h : _validate_identifier (_normalize_table_name table_name) = false ∨
      _validate_identifier column_name = false ∨
      knownTables.contains (toLowerStr (_normalize_table_name table_name)) = false) :
    (explore_column_values knownTables db table_name column_name search_term
        limit).success = false ∧
    (explore_column_values knownTables db table_name column_name search_term
        limit).error.isSome = true ∧
    ∀ db2, explore_column_values knownTables db table_name column_name search_term limit =
      explore_column_values knownTables db2 table_name column_name search_term limit := by
  have key : ∃ msg, ∀ dbx : Except String (List (String × Int) × Int),
      explore_column_values knownTables dbx table_name column_name search_term limit =
        exploreFailure search_term msg := by
    by_cases h1 : _validate_identifier (_normalize_table_name table_name) = true
    · by_cases h2 : _validate_identifier column_name = true
      · have h3 : knownTables.contains (toLowerStr (_normalize_table_name table_name))
            = false := by
          rcases h with h | h | h
          · rw [h1] at h; cases h
          · rw [h2] at h; cases h
          · exact h
        refine ⟨"Table '" ++ _normalize_table_name table_name ++
          "' not found. Available tables include: " ++ String.intercalate ", "
            ((knownTables.take 10).mergeSort (fun a b => decide (a ≤ b))), fun dbx => ?_⟩
        unfold explore_column_values explore_checked
        rw [if_neg (by simp [h1]), if_neg (by simp [h2]),
          if_pos (by rw [h3]; simp)]
      · rw [Bool.not_eq_true] at h2
        refine ⟨"Invalid column name: " ++ column_name, fun dbx => ?_⟩
        unfold explore_column_values explore_checked
        rw [if_neg (by simp [h1]), if_pos (by simp [h2])]
    · rw [Bool.not_eq_true] at h1
      refine ⟨"Invalid table name: " ++ _normalize_table_name table_name, fun dbx => ?_⟩
      unfold explore_column_values explore_checked
      rw [if_pos (by simp [h1])]
  obtain ⟨msg, key⟩ := key
  refine ⟨?_, ?_, fun db2 => ?_⟩
  · rw [key db]
    rfl
  · rw [key db]
    rfl
  · rw [key db, key db2]

/-- Concrete instance for C8 (amended): an unknown table is rejected without
touching the database. -/
theorem c8_witness :
    (explore_column_values [] (Except.ok ([], 0)) "users" "name" none 20).success
        = false ∧
    (explore_column_values [] (Except.ok ([], 0)) "users" "name" none 20).error.isSome
        = true ∧
    ∀ db2, explore_column_values [] (Except.ok ([], 0)) "users" "name" none 20 =
      explore_column_values [] db2 "users" "name" none 20 :=
  c8_reject_before_query [] (Except.ok ([], 0)) "users" "name" none 20
    (Or.inr (Or.inr (by decide)))

theorem dictInsert_length_le (cache : List (String × CachedQuery)) (token : String)
    (entry : CachedQuery) :
    (dictInsert cache token entry).length ≤ cache.length + 1 := by
  unfold dictInsert
  split
  · rw [List.length_map]
    omega
  · simp

/-- A cache of 10000 distinct, freshly created entries (used to exhibit the
capacity overshoot). -/
def c9Entry : CachedQuery := ⟨"SELECT 1", 0, "s"⟩

def c9List : List (String × CachedQuery) :=
  (List.range 10000).map (fun i => ("k" ++ Nat.repr i, c9Entry))

def c9FullCache : QueryCache := ⟨c9List, 3600, 10000⟩

/-- C9 counterexample: `store` onto a cache that already holds
`max_entries = 10000` unexpired entries triggers the opportunistic cleanup,
which evicts nothing (no entry is expired), and then inserts — leaving 10001
entries, more than the configured capacity bound.  So the claimed invariant
"the number of entries never exceeds max_entries" is false. -/
theorem store_at_capacity (qc : QueryCache) (now : Int) (token sql sid : String)
    (h : qc.cache.length ≥ qc.max_entries) :
    (qc.store now token sql sid).cache =
      dictInsert (qc.cleanupExpired now).cache token ⟨sql, now, sid⟩ := by
  unfold QueryCache.store
  rw [if_pos h]

theorem cleanup_of_unexpired (qc : QueryCache) (now : Int)
    (h : ∀ e ∈ qc.cache, ¬ (now - e.2.created_at > qc.ttl)) :
    (qc.cleanupExpired now).cache = qc.cache := by
  refine List.filter_eq_self.mpr ?_
  intro e he
  simp [h e he]

theorem dictInsert_fresh (cache : List (String × CachedQuery)) (token : String)
    (entry : CachedQuery) (h : ∀ e ∈ cache, (e.1 == token) = false) :
    dictInsert cache token entry = cache ++ [(token, entry)] := by
  unfold dictInsert
  rw [if_neg]
  intro hany
  obtain ⟨e, he, hbe⟩ := List.any_eq_true.mp hany
  rw [h e he] at hbe
  cases hbe

theorem c9_counterexample :
    c9FullCache.max_entries = 10000 ∧
    c9FullCache.cache.length = 10000 ∧
    (c9FullCache.store 0 "fresh" "SELECT 2" "s2").cache.length = 10001 := by
  have hcache : c9FullCache.cache = c9List := by simp only [c9FullCache]
  have hlist : c9List = (List.range 10000).map (fun i => ("k" ++ Nat.repr i, c9Entry)) := by
    simp only [c9List]
  have hlen : c9FullCache.cache.length = 10000 := by
    rw [hcache, hlist, List.length_map, List.length_range]
  refine ⟨rfl, hlen, ?_⟩
  have hclean : (c9FullCache.cleanupExpired 0).cache = c9FullCache.cache := by
    refine cleanup_of_unexpired _ _ ?_
    intro e he
    rw [hcache, hlist] at he
    obtain ⟨i, _, rfl⟩ := List.mem_map.mp he
    show ¬ ((0 : Int) - c9Entry.created_at > c9FullCache.ttl)
    decide
  have hfresh : ∀ e ∈ c9FullCache.cache, (e.1 == "fresh") = false := by
    intro e he
    rw [hcache, hlist] at he
    obtain ⟨i, _, rfl⟩ := List.mem_map.mp he
    refine beq_eq_false_iff_ne.mpr ?_
    intro heq
    have hd := congrArg String.data heq
    rw [String.data_append] at hd
    exact absurd (List.head_eq_of_cons_eq hd) (by decide)
  rw [store_at_capacity _ _ _ _ _ (by rw [hlen]; exact Nat.le_refl 10000)]
  rw [hclean, dictInsert_fresh _ _ _ hfresh, List.length_append, hlen]
  rfl

/-- C9 (amended): eviction on insert removes exactly the expired entries and
only runs when the cache already holds at least `max_entries` entries, so a
`store` leaves at most `max(max_entries, unexpired + 1)` entries, where
`unexpired` is the number of non-expired entries before the store; the hard
bound `max_entries` holds only when enough entries have expired.  `get`
never grows the cache. -/
theorem c9_store_size_bound :
    (∀ (qc : QueryCache) (now : Int) (token sql sid : String),
      (qc.store now token sql sid).cache.length ≤
        max qc.max_entries
          ((qc.cache.filter
            (fun e => ! decide (now - e.2.created_at > qc.ttl))).length + 1)) ∧
    (∀ (qc : QueryCache) (now : Int) (token : String),
      (qc.get now token).2.cache.length ≤ qc.cache.length) := by
  constructor
  · intro qc now token sql sid
    unfold QueryCache.store
    split
    · have h1 := dictInsert_length_le (qc.cleanupExpired now).cache token ⟨sql, now, sid⟩
      have h2 : (qc.cleanupExpired now).cache =
          qc.cache.filter (fun e => ! decide (now - e.2.created_at > qc.ttl)) := rfl
      rw [h2] at h1
      exact le_trans h1 (le_max_right _ _)
    · rename_i hlt
      have h1 := dictInsert_length_le qc.cache token ⟨sql, now, sid⟩
      have h2 : qc.cache.length + 1 ≤ qc.max_entries := by omega
      exact le_trans h1 (le_trans h2 (le_max_left _ _))
  · intro qc now token
    unfold QueryCache.get
    split
    · exact le_refl _
    · split
      · exact List.length_filter_le _ _
      · exact le_refl _

/-- C2: in every configuration reachable from `create_initial_state` —
in particular whenever the pipeline terminates — `retry_count ≤ MAX_RETRIES`
(= 2) and `exploration_count ≤ MAX_EXPLORATIONS` (= 3): the retry back-edge
and the exploration back-edge are both guarded by a `<` test on the
already-updated counter, so neither bound can ever be exceeded, for any
behaviour of the LLM, parser, schema catalog and database. -/
theorem c2_retry_exploration_bounds (q sid : String) (p ps : Int) (c : Config)
    (h : Reach (initConfig q sid p ps) c) :
    c.state.retry_count ≤ MAX_RETRIES ∧
      c.state.exploration_count ≤ MAX_EXPLORATIONS := by
  have hI := reach_counterInv h (initConfig_counterInv q sid p ps)
  exact ⟨hI.1, hI.2.1⟩

/-- Concrete instance for C2: the bounds at the entry configuration. -/
theorem c2_witness :
    (initConfig "q" "sess" 1 100).state.retry_count ≤ MAX_RETRIES ∧
      (initConfig "q" "sess" 1 100).state.exploration_count ≤ MAX_EXPLORATIONS :=
  c2_retry_exploration_bounds "q" "sess" 1 100 (initConfig "q" "sess" 1 100)
    (Reach.refl (initConfig "q" "sess" 1 100))

/-- C3: when the Validator's update sets
`special_response_type = RESOURCE_NOT_FOUND` (unknown table), every
configuration the pipeline can subsequently reach sits at the
`increment_retry` bookkeeping node, the Responder, or END — the
SqlGenerator stage is never re-entered, so no retry generation attempt
occurs on this path. -/
theorem c3_resource_not_found_no_retry (s : PipeState)
    (parse : String → ParseOutcome) (tablesCheck : Bool × Option String)
    (hrnf : (validator_apply s parse tablesCheck).special_response_type =
      some SpecialType.RESOURCE_NOT_FOUND) (c : Config)
    (h : Reach
      ⟨should_execute (validator_apply s parse tablesCheck),
        validator_apply s parse tablesCheck⟩ c) :
    c.node ≠ Node.sql_generator ∧
      (c.node = Node.increment_retry ∨ c.node = Node.responder ∨
        c.node = Node.done) := by
  have hiv := validator_apply_rnf_invalid s parse tablesCheck hrnf
  have hbase : rnfLocked
      ⟨should_execute (validator_apply s parse tablesCheck),
        validator_apply s parse tablesCheck⟩ := by
    refine ⟨?_, hrnf, hiv⟩
    unfold should_execute
    rw [hiv]
    exact Or.inl (by simp)
  have hP := reach_rnfLocked h hbase
  refine ⟨?_, hP.1⟩
  rcases hP.1 with hh | hh | hh <;> rw [hh] <;> decide

/-- Concrete instance for C3: a validator run whose table check fails
(unknown table) locks the pipeline out of SqlGenerator. -/
theorem c3_witness :
    (validator_apply
        { create_initial_state "q" "sess" 1 100 with generated_sql := some "SELECT 1" }
        (fun _ => ParseOutcome.parsed [some "SELECT"])
        (false, some "The requested resource type 'ghost' does not exist in our database.")
      ).special_response_type = some SpecialType.RESOURCE_NOT_FOUND ∧
    (⟨should_execute (validator_apply
        { create_initial_state "q" "sess" 1 100 with generated_sql := some "SELECT 1" }
        (fun _ => ParseOutcome.parsed [some "SELECT"])
        (false, some "The requested resource type 'ghost' does not exist in our database.")),
      validator_apply
        { create_initial_state "q" "sess" 1 100 with generated_sql := some "SELECT 1" }
        (fun _ => ParseOutcome.parsed [some "SELECT"])
        (false, some "The requested resource type 'ghost' does not exist in our database.")⟩
        : Config).node ≠ Node.sql_generator :=
  ⟨rfl,
    (c3_resource_not_found_no_retry
      { create_initial_state "q" "sess" 1 100 with generated_sql := some "SELECT 1" }
      (fun _ => ParseOutcome.parsed [some "SELECT"])
      (false, some "The requested resource type 'ghost' does not exist in our database.")
      rfl _ (Reach.refl _)).1⟩

/-- C4: in every reachable configuration, `executed = true` implies
`is_valid = true`: the Executor refuses to run on an invalid state, and the
ToolExecutor's `execute_sql_query` path sets `is_valid := true` together
with `executed := true`. -/
theorem c4_executed_implies_valid (q sid : String) (p ps : Int) (c : Config)
    (h : Reach (initConfig q sid p ps) c) (hexec : c.state.executed = true) :
    c.state.is_valid = true :=
  (reach_execInv h (initConfig_execInv q sid p ps)).1 hexec

/-- A concrete successful run for C4's witness: retrieval, generation of
"SELECT 1", successful validation, successful execution. -/
def c4s0 : PipeState := create_initial_state "q" "sess" 1 100

def c4s1 : PipeState := retrieval_apply c4s0 ⟨[], [], []⟩

def c4gen : GenOutcome := GenOutcome.text (some "SELECT 1") none none

def c4s2 : PipeState := sql_generator_apply c4s1 c4gen

def c4parse : String → ParseOutcome := fun _ => ParseOutcome.parsed [some "SELECT"]

def c4s3 : PipeState := validator_apply c4s2 c4parse (true, none)

def c4fetch : Int → Int → FetchResult := fun _ _ => ⟨true, [], [], none⟩

def c4s4 : PipeState := executor_apply c4s3 (some 0) c4fetch "tok" 2500

/-- Concrete instance for C4: after the successful execution above,
`executed = true` and the theorem yields `is_valid = true`. -/
theorem c4_witness : c4s4.executed = true ∧ c4s4.is_valid = true :=
  ⟨rfl,
    c4_executed_implies_valid "q" "sess" 1 100 ⟨Node.responder, c4s4⟩
      (Reach.tail
        (Reach.tail
          (Reach.tail
            (Reach.tail (Reach.refl (initConfig "q" "sess" 1 100))
              (Step.retrieval c4s0 ⟨[], [], []⟩))
            (Step.sql_generator c4s1 c4gen))
          (Step.validator c4s2 c4parse (true, none)))
        (Step.executor c4s3 (some 0) c4fetch "tok" 2500))
      rfl⟩

/-- The C5 scenario oracle: the LLM always produces SQL, and the parser
always rejects it (`ParseError`), so every generation attempt fails
validation and no special response type is set; three generations are
available. -/
def c5Oracle : RunOracle :=
  { retrievalOutcome := ⟨[], [], []⟩
    genOutcomes := [GenOutcome.text (some "SELECT 1") none none,
                    GenOutcome.text (some "SELECT 1") none none,
                    GenOutcome.text (some "SELECT 1") none none]
    parses := [fun _ => ParseOutcome.parseError "boom",
               fun _ => ParseOutcome.parseError "boom",
               fun _ => ParseOutcome.parseError "boom"]
    tables := [(true, none), (true, none), (true, none)]
    execCount := none
    execFetch := fun _ _ => ⟨false, [], [], some "x"⟩
    execToken := "t"
    csvMaxRows := 2500
    toolOracles := []
    llmText := "resp" }

/-- C5: evaluating the pipeline under the always-invalid oracle.  The claim
(and spec Scenario E) says three consecutive generation attempts occur
before `MAX_RETRIES = 2` is exhausted; the code performs exactly TWO
SqlGenerator invocations (the guard `retry_count < MAX_RETRIES` is tested
after `increment_retry` already ran, so the second failure stops the loop),
then terminates at the Responder with `retry_count = 2` and the last
validation errors attached.  This contradicts Scenario E and the module's
own docstring "retry SQL generation up to MAX_RETRIES times"
(`graph.py` line 112), an off-by-one: the code retries at most
`MAX_RETRIES - 1` times. -/
theorem c5_two_generation_attempts :
    (runPipeline 20 c5Oracle (initConfig "q" "s" 1 100) 0).map
        (fun r => (r.1.node, r.2)) = some (Node.done, 2) ∧
    (runPipeline 20 c5Oracle (initConfig "q" "s" 1 100) 0).map
        (fun r => r.1.state.retry_count) = some 2 ∧
    (runPipeline 20 c5Oracle (initConfig "q" "s" 1 100) 0).map
        (fun r => r.1.state.validation_errors) = some ["SQL syntax error: boom"] ∧
    c5Oracle.genOutcomes.length = 3 :=
  ⟨rfl, rfl, rfl, rfl⟩

/-- Concrete instance for C1: "DELETE FROM users" (with an arbitrary fixed
parser behaviour) is rejected with only fixed read-only messages. -/
theorem c1_witness :
    (validate_sql (fun _ => ParseOutcome.parsed []) "DELETE FROM users").is_valid = false ∧
    ∀ e ∈ (validate_sql (fun _ => ParseOutcome.parsed []) "DELETE FROM users").errors,
      (∃ kv ∈ PROHIBITED_OPERATIONS, e = kv.2) ∨ e = READ_ONLY_SUGGESTION :=
  c1_prohibited_keyword_rejection (fun _ => ParseOutcome.parsed []) "DELETE FROM users"
    ⟨("DELETE", "This system is read-only. Deleting data is not permitted."),
      by decide, by decide⟩

end TextToSql
